import Mathlib

/-!
Verification of the WiFi monitoring program (`src/wifi-monitor.py`) against
its natural-language specification.

The program is a single Python class `WiFiMonitor`.  We embed its state and
operations shallowly in Lean:

* Python `float` speeds and durations become `ℚ` (all arithmetic in the
  program is exact on the values the claims mention);
* `datetime` values become a pair of an absolute time (`ℚ`) and the
  hour-of-day accessor `.hour` (a `Fin 24`, as `datetime.hour` always
  lies in `0..23`);
* the `float('inf')` sentinel used to initialise the min extremes becomes
  `Option ℚ` with `none` playing the role of `+∞` (every finite value
  compares strictly below it, exactly as in IEEE comparison with `inf`);
* the `hourly_averages` dict becomes an insertion-ordered association list
  with replace-on-existing-key semantics, matching Python dict assignment;
* fallible/IO-facing parts (the probes, `time.sleep`, logging, file
  output) are inputs to the step functions: a speed-probe outcome is an
  `Option (ℚ × ℚ)` (`none` models the `except` path of `measure_speed`
  returning `(None, None)`).
-/

namespace WifiMonitor

/-- A `datetime` value as the program uses it: an absolute timestamp
(for arithmetic on `timedelta`s) together with its `.hour` accessor,
which on a real `datetime` is always in `0..23`. -/
structure DateTime where
  time : ℚ
  hour : Fin 24
deriving Repr, DecidableEq

/-- One entry of the sample log `self.speeds`
(`wifi-monitor.py` lines 247-252): the dict
`{'timestamp': current_time, 'hour': current_time.hour,
'download': ..., 'upload': ...}`. -/
structure Sample where
  timestamp : DateTime
  hour : Fin 24
  download : ℚ
  upload : ℚ
deriving Repr, DecidableEq

/-- One entry of `self.disconnections`
(`wifi-monitor.py` lines 82-86): `{'start': ..., 'end': ..., 'duration': ...}`.
`end` is a Lean keyword, hence the field name `end_`. -/
structure DisconnectionEvent where
  start : DateTime
  end_ : DateTime
  duration : ℚ
deriving Repr, DecidableEq

/-- A max extreme entry (`{'speed': ..., 'timestamp': ...}`).
`max_download`/`max_upload` initialise to speed `0` and timestamp `None`
(`wifi-monitor.py` lines 19, 21). -/
structure MaxExtreme where
  speed : ℚ
  timestamp : Option DateTime
deriving Repr, DecidableEq

/-- A min extreme entry.  `min_download`/`min_upload` initialise to speed
`float('inf')` and timestamp `None` (`wifi-monitor.py` lines 20, 22);
`none` in the `speed` field models the `inf` sentinel. -/
structure MinExtreme where
  speed : Option ℚ
  timestamp : Option DateTime
deriving Repr, DecidableEq

/-- One value of the `hourly_averages` dict
(`wifi-monitor.py` lines 217-221):
`{'download': mean, 'upload': mean, 'samples': count}`. -/
structure HourlyAverage where
  download : ℚ
  upload : ℚ
  samples : ℕ
deriving Repr, DecidableEq

/-- The mutable state of a `WiFiMonitor` instance: the fields set up by
`__init__` (`wifi-monitor.py` lines 13-23).  The four fixed keys of the
`speed_extremes` dict become four record fields. -/
structure MonitorState where
  speeds : List Sample
  disconnections : List DisconnectionEvent
  hourly_averages : List (Fin 24 × HourlyAverage)
  current_hour : Fin 24
  max_download : MaxExtreme
  min_download : MinExtreme
  max_upload : MaxExtreme
  min_upload : MinExtreme
deriving Repr, DecidableEq

/-- Constructor `__init__` (`wifi-monitor.py` lines 13-23): empty logs, empty hourly
map, `current_hour = datetime.now().hour` (the hour at start-up is the
parameter `h0`), max extremes at `0`, min extremes at `inf` (`none`). -/
def initState (h0 : Fin 24) : MonitorState :=
  { speeds := []
    disconnections := []
    hourly_averages := []
    current_hour := h0
    max_download := ⟨0, none⟩
    min_download := ⟨none, none⟩
    max_upload := ⟨0, none⟩
    min_upload := ⟨none, none⟩ }

/-- The Python comparison `x < current_min` where the current min may be
the `float('inf')` sentinel (`none`): every finite value is strictly
below `inf`. -/
def ltInf (x : ℚ) : Option ℚ → Prop
  | none => True
  | some m => x < m

instance (x : ℚ) (m : Option ℚ) : Decidable (ltInf x m) := by
  cases m with
  | none => exact isTrue trivial
  | some v => exact inferInstanceAs (Decidable (x < v))

/-- The first `if` of `update_speed_extremes` (`wifi-monitor.py`
lines 55-59): replace `max_download` when strictly beaten. -/
def updMaxDownload (download_speed : ℚ) (current_time : DateTime)
    (s : MonitorState) : MonitorState :=
  if download_speed > s.max_download.speed then
    { s with max_download := ⟨download_speed, some current_time⟩ } else s

/-- The second `if` of `update_speed_extremes` (`wifi-monitor.py`
lines 60-64): replace `min_download` when strictly below (the initial
`inf` sentinel is above every finite value). -/
def updMinDownload (download_speed : ℚ) (current_time : DateTime)
    (s : MonitorState) : MonitorState :=
  if ltInf download_speed s.min_download.speed then
    { s with min_download := ⟨some download_speed, some current_time⟩ } else s

/-- The third `if` of `update_speed_extremes` (`wifi-monitor.py`
lines 66-70). -/
def updMaxUpload (upload_speed : ℚ) (current_time : DateTime)
    (s : MonitorState) : MonitorState :=
  if upload_speed > s.max_upload.speed then
    { s with max_upload := ⟨upload_speed, some current_time⟩ } else s

/-- The fourth `if` of `update_speed_extremes` (`wifi-monitor.py`
lines 71-75). -/
def updMinUpload (upload_speed : ℚ) (current_time : DateTime)
    (s : MonitorState) : MonitorState :=
  if ltInf upload_speed s.min_upload.speed then
    { s with min_upload := ⟨some upload_speed, some current_time⟩ } else s

/-- Function `update_speed_extremes(download_speed, upload_speed)`
(`wifi-monitor.py` lines 52-75): the four strict comparison-and-replace
steps run in sequence, each stamping `current_time`; each touches a
distinct key of the `speed_extremes` dict. -/
def update_speed_extremes (download_speed upload_speed : ℚ)
    (current_time : DateTime) (s : MonitorState) : MonitorState :=
  updMinUpload upload_speed current_time
    (updMaxUpload upload_speed current_time
      (updMinDownload download_speed current_time
        (updMaxDownload download_speed current_time s)))

/-- One speed measurement as fed to the extremes tracker: the
`(download_speed, upload_speed)` pair of a successful `measure_speed`
together with the `datetime.now()` it is stamped with. -/
structure Meas where
  download : ℚ
  upload : ℚ
  time : DateTime
deriving Repr, DecidableEq

/-- Feeding a sequence of successful measurements through
`update_speed_extremes`, in order. -/
def updateAll (ms : List Meas) (s : MonitorState) : MonitorState :=
  ms.foldl (fun st m => update_speed_extremes m.download m.upload m.time st) s

/-- Function `track_disconnection(start_time)` (`wifi-monitor.py` lines 77-87):
after the blocking re-poll loop ends, `end_time = datetime.now()` is
taken, `duration = end_time - start_time`, and the event is appended to
`self.disconnections` in one step.  The blocking wait itself is real
time; its only observable effect on the state is the appended event, so
the reconnection instant is the parameter `end_time`.  (Because
`end_time` is read from the wall clock strictly after `start_time` was,
the monotone clock gives `start_time.time ≤ end_time.time`; theorems
take this as a hypothesis.) -/
def track_disconnection (start_time end_time : DateTime)
    (s : MonitorState) : MonitorState :=
  { s with disconnections :=
      s.disconnections ++ [⟨start_time, end_time, end_time.time - start_time.time⟩] }

/-- Function `calculate_total_downtime` (`wifi-monitor.py` lines 126-130): start
from the zero `timedelta()` and add every recorded event's `duration`
field, in list order. -/
def calculate_total_downtime (s : MonitorState) : ℚ :=
  s.disconnections.foldl (fun total_duration d => total_duration + d.duration) 0

/-- Model of `statistics.mean` on a list of rationals (only ever applied to
nonempty lists by the program; on `[]` Lean's `ℚ` division by zero
yields `0`, a case the program never reaches). -/
def listMean (xs : List ℚ) : ℚ := xs.sum / xs.length

/-- Python dict assignment `self.hourly_averages[hour] = value`: replace
the value at an existing key in place, otherwise append at the end
(insertion order). -/
def insertEntry (k : Fin 24) (v : HourlyAverage) :
    List (Fin 24 × HourlyAverage) → List (Fin 24 × HourlyAverage)
  | [] => [(k, v)]
  | (k2, v2) :: rest =>
      if k2 = k then (k, v) :: rest else (k2, v2) :: insertEntry k v rest

/-- Python dict lookup `self.hourly_averages[hour]`, as an `Option`. -/
def lookupHour (k : Fin 24) : List (Fin 24 × HourlyAverage) → Option HourlyAverage
  | [] => none
  | (k2, v) :: rest => if k2 = k then some v else lookupHour k rest

/-- Function `calculate_hourly_average` (`wifi-monitor.py` lines 197-221): if the
sample log is empty, return; filter the FULL log `self.speeds` for
entries whose `'hour'` equals `self.current_hour`; if none, return;
otherwise write `{mean download, mean upload, count}` into
`hourly_averages[current_hour]`.  Note the program keeps no per-hour
bucket: it re-filters the whole (never cleared) sample log. -/
def calculate_hourly_average (s : MonitorState) : MonitorState :=
  if s.speeds = [] then s
  else
    let hour_speeds := s.speeds.filter (fun speed => speed.hour == s.current_hour)
    if hour_speeds = [] then s
    else
      let avg : HourlyAverage :=
        ⟨listMean (hour_speeds.map (·.download)),
         listMean (hour_speeds.map (·.upload)),
         hour_speeds.length⟩
      { s with hourly_averages := insertEntry s.current_hour avg s.hourly_averages }

/-- The `HourlyAverage` value `calculate_hourly_average` writes for the
tracked hour: means and count over the matching samples of the full
log (`wifi-monitor.py` lines 205-221). -/
def hourEntry (s : MonitorState) : HourlyAverage :=
  ⟨listMean ((s.speeds.filter (fun speed => speed.hour == s.current_hour)).map (·.download)),
   listMean ((s.speeds.filter (fun speed => speed.hour == s.current_hour)).map (·.upload)),
   (s.speeds.filter (fun speed => speed.hour == s.current_hour)).length⟩

/-! ### Pattern analysis

`analyze_patterns` (`wifi-monitor.py` lines 89-124) groups the sample
log by `df['timestamp'].dt.hour` with pandas and aggregates each
direction with `['mean', 'std']`.  Facts of the pandas API that the
embedding mirrors:

* `groupby` keys are the hours present in the log, iterated in
  ascending order (`sort=True` is the default);
* `std` is the SAMPLE standard deviation (`ddof=1`): a group with a
  single row yields `NaN`, not `0`;
* `Series.idxmax`/`idxmin` return the FIRST index attaining the
  max/min (ties go to the smallest hour, given the ascending key
  order);
* `Series.mean` skips `NaN` entries (`skipna=True`), and is itself
  `NaN` when every entry is `NaN`.

`NaN` is modelled as `none`.  The `std` column is modelled up to the
strictly monotone square root: `sampleVar` returns `none` exactly when
pandas `std` is `NaN` (group size < 2) and otherwise carries the
variance `Σ(x - x̄)² / (n - 1)` instead of its square root.  Every
claim settled here depends only on which entries are `NaN`, never on
the numeric value of a defined standard deviation, and `NaN`-ness is
preserved exactly by dropping the square root. -/

/-- The ascending list of hour-of-day keys produced by
`df.groupby(df['timestamp'].dt.hour)`: the hours `0..23` that occur as
some logged sample's timestamp hour, in increasing order. -/
def hoursOf (log : List Sample) : List (Fin 24) :=
  (List.finRange 24).filter (fun h => log.any (fun sp => sp.timestamp.hour == h))

/-- The rows of the group for hour `h`, projected to one direction by
`f` (download or upload). -/
def groupVals (log : List Sample) (h : Fin 24) (f : Sample → ℚ) : List ℚ :=
  (log.filter (fun sp => sp.timestamp.hour == h)).map f

/-- Pandas sample standard deviation (`ddof=1`) of a group, modelled up
to the monotone square root: `none` is `NaN` (fewer than two rows),
`some v` carries the variance `Σ(x - x̄)² / (n - 1)`. -/
def sampleVar (xs : List ℚ) : Option ℚ :=
  if xs.length < 2 then none
  else some ((xs.map (fun x => (x - listMean xs) ^ 2)).sum / (xs.length - 1))

/-- Model of `Series.mean` with the default `skipna=True`: the mean of the
non-`NaN` entries, `NaN` (`none`) when there are none. -/
def nanmean (xs : List (Option ℚ)) : Option ℚ :=
  let defined := xs.filterMap id
  if defined = [] then none else some (listMean defined)

/-- Model of `Series.idxmax`: the first key (in list order, which for groupby
output is ascending hour) whose value attains the maximum. -/
def idxmaxBy (keys : List (Fin 24)) (val : Fin 24 → ℚ) : Option (Fin 24) :=
  match keys with
  | [] => none
  | k :: ks => some (ks.foldl (fun best k2 => if val k2 > val best then k2 else best) k)

/-- Model of `Series.idxmin`: the first key whose value attains the minimum. -/
def idxminBy (keys : List (Fin 24)) (val : Fin 24 → ℚ) : Option (Fin 24) :=
  match keys with
  | [] => none
  | k :: ks => some (ks.foldl (fun best k2 => if val k2 < val best then k2 else best) k)

/-- The dictionary returned by `analyze_patterns` (minus the raw
`hourly_patterns` table, which the report only reads through the
fields below). -/
structure Patterns where
  peak_download : Option (Fin 24)
  peak_upload : Option (Fin 24)
  low_download : Option (Fin 24)
  low_upload : Option (Fin 24)
  stability_download : Option ℚ
  stability_upload : Option ℚ
deriving Repr, DecidableEq

/-- Function `analyze_patterns` (`wifi-monitor.py` lines 89-124): `None` on an
empty log; otherwise peak/low hours by `idxmax`/`idxmin` over the
per-hour means and stability scores as the `NaN`-skipping mean of the
per-hour sample standard deviations. -/
def analyze_patterns (log : List Sample) : Option Patterns :=
  if log = [] then none
  else
    let hours := hoursOf log
    let dmean := fun h => listMean (groupVals log h (·.download))
    let umean := fun h => listMean (groupVals log h (·.upload))
    some
      { peak_download := idxmaxBy hours dmean
        peak_upload := idxmaxBy hours umean
        low_download := idxminBy hours dmean
        low_upload := idxminBy hours umean
        stability_download := nanmean (hours.map (fun h => sampleVar (groupVals log h (·.download))))
        stability_upload := nanmean (hours.map (fun h => sampleVar (groupVals log h (·.upload)))) }

/-- The data content of the report assembled by `generate_report`
(`wifi-monitor.py` lines 132-195).  Text formatting and the file sink
are outside the model; the report is its structured content. -/
structure Report where
  patterns : Option Patterns
  total_downtime : ℚ
  max_download : MaxExtreme
  min_download : MinExtreme
  max_upload : MaxExtreme
  min_upload : MinExtreme
  disconnections : List DisconnectionEvent
  hourly_averages : List (Fin 24 × HourlyAverage)
deriving Repr, DecidableEq

/-- Function `generate_report` (`wifi-monitor.py` lines 132-195): run
`analyze_patterns` and `calculate_total_downtime`, then assemble the
sections.  A total Lean function: the assembly raises on no input. -/
def generate_report (s : MonitorState) : Report :=
  { patterns := analyze_patterns s.speeds
    total_downtime := calculate_total_downtime s
    max_download := s.max_download
    min_download := s.min_download
    max_upload := s.max_upload
    min_upload := s.min_upload
    disconnections := s.disconnections
    hourly_averages := s.hourly_averages }

/-- One reachable-path iteration of the `run` loop
(`wifi-monitor.py` lines 229-256), given the wall clock `now` and the
speed-probe outcome (`none` models `measure_speed` failing and
returning `(None, None)`):

* lines 233-235: if `now.hour` differs from the tracked hour, finalize
  the hourly average and advance the tracked hour;
* line 245: `measure_speed` — on success it FIRST updates the
  extremes (line 46) and then returns the pair;
* line 246: `if download_speed and upload_speed:` — Python truthiness:
  the sample is appended only when both values are non-`None` AND
  nonzero, so a measured `0.0` is silently dropped from the log even
  though the extremes already saw it. -/
def loopStep (s : MonitorState) (now : DateTime)
    (probe : Option (ℚ × ℚ)) : MonitorState :=
  let s :=
    if now.hour ≠ s.current_hour then
      { calculate_hourly_average s with current_hour := now.hour }
    else s
  match probe with
  | none => s
  | some (download_speed, upload_speed) =>
      let s := update_speed_extremes download_speed upload_speed now s
      if download_speed ≠ 0 ∧ upload_speed ≠ 0 then
        { s with speeds :=
            s.speeds ++ [⟨now, now.hour, download_speed, upload_speed⟩] }
      else s

/-- The specification's three-sample scenario, replayed through the
loop: start at hour 10, two successful probes in hour 10
(50/10 and 80/15 Mbps), one in hour 11 (20/5 Mbps, which first
triggers the 10→11 hourly finalization), then the terminal
`calculate_hourly_average()` of `run` (`wifi-monitor.py` line 259). -/
def scenarioRun : MonitorState :=
  calculate_hourly_average
    (loopStep
      (loopStep
        (loopStep (initState 10) ⟨0, 10⟩ (some (50, 10)))
        ⟨1, 10⟩ (some (80, 15)))
      ⟨2, 11⟩ (some (20, 5)))

/-- The state of `scenarioRun` after its first iteration. -/
def stage1 : MonitorState :=
  { speeds := [⟨⟨0, 10⟩, 10, 50, 10⟩]
    disconnections := []
    hourly_averages := []
    current_hour := 10
    max_download := ⟨50, some ⟨0, 10⟩⟩
    min_download := ⟨some 50, some ⟨0, 10⟩⟩
    max_upload := ⟨10, some ⟨0, 10⟩⟩
    min_upload := ⟨some 10, some ⟨0, 10⟩⟩ }

/-- The state of `scenarioRun` after its second iteration. -/
def stage2 : MonitorState :=
  { speeds := [⟨⟨0, 10⟩, 10, 50, 10⟩, ⟨⟨1, 10⟩, 10, 80, 15⟩]
    disconnections := []
    hourly_averages := []
    current_hour := 10
    max_download := ⟨80, some ⟨1, 10⟩⟩
    min_download := ⟨some 50, some ⟨0, 10⟩⟩
    max_upload := ⟨15, some ⟨1, 10⟩⟩
    min_upload := ⟨some 10, some ⟨0, 10⟩⟩ }

/-- The state of `scenarioRun` after its third iteration (which crossed
the 10→11 hour boundary and finalized hour 10). -/
def stage3 : MonitorState :=
  { speeds := [⟨⟨0, 10⟩, 10, 50, 10⟩, ⟨⟨1, 10⟩, 10, 80, 15⟩, ⟨⟨2, 11⟩, 11, 20, 5⟩]
    disconnections := []
    hourly_averages := [(10, ⟨65, 25 / 2, 2⟩)]
    current_hour := 11
    max_download := ⟨80, some ⟨1, 10⟩⟩
    min_download := ⟨some 20, some ⟨2, 11⟩⟩
    max_upload := ⟨15, some ⟨1, 10⟩⟩
    min_upload := ⟨some 5, some ⟨2, 11⟩⟩ }

/-- The final state of `scenarioRun`, after the terminal finalization
of hour 11. -/
def stage4 : MonitorState :=
  { speeds := [⟨⟨0, 10⟩, 10, 50, 10⟩, ⟨⟨1, 10⟩, 10, 80, 15⟩, ⟨⟨2, 11⟩, 11, 20, 5⟩]
    disconnections := []
    hourly_averages := [(10, ⟨65, 25 / 2, 2⟩), (11, ⟨20, 5, 1⟩)]
    current_hour := 11
    max_download := ⟨80, some ⟨1, 10⟩⟩
    min_download := ⟨some 20, some ⟨2, 11⟩⟩
    max_upload := ⟨15, some ⟨1, 10⟩⟩
    min_upload := ⟨some 5, some ⟨2, 11⟩⟩ }

/-- A run that visits hour-of-day 10 twice (a 25-hour run wrapping past
midnight): one sample (100/100) in the first visit, the hour rolls to
11 (finalizing hour 10), and a day later a sample (20/30) arrives in
hour 10 again (finalizing the empty hour 11 on the way), followed by
the terminal finalization of hour 10. -/
def doubleVisitRun : MonitorState :=
  calculate_hourly_average
    (loopStep
      (loopStep
        (loopStep (initState 10) ⟨0, 10⟩ (some (100, 100)))
        ⟨1, 11⟩ none)
      ⟨25, 10⟩ (some (20, 30)))

/-- The state of `doubleVisitRun` after its first iteration. -/
def dstage1 : MonitorState :=
  { speeds := [⟨⟨0, 10⟩, 10, 100, 100⟩]
    disconnections := []
    hourly_averages := []
    current_hour := 10
    max_download := ⟨100, some ⟨0, 10⟩⟩
    min_download := ⟨some 100, some ⟨0, 10⟩⟩
    max_upload := ⟨100, some ⟨0, 10⟩⟩
    min_upload := ⟨some 100, some ⟨0, 10⟩⟩ }

/-- The state of `doubleVisitRun` after the failed-probe iteration that
crossed the 10→11 boundary and finalized hour 10 from its single
sample. -/
def dstage2 : MonitorState :=
  { speeds := [⟨⟨0, 10⟩, 10, 100, 100⟩]
    disconnections := []
    hourly_averages := [(10, ⟨100, 100, 1⟩)]
    current_hour := 11
    max_download := ⟨100, some ⟨0, 10⟩⟩
    min_download := ⟨some 100, some ⟨0, 10⟩⟩
    max_upload := ⟨100, some ⟨0, 10⟩⟩
    min_upload := ⟨some 100, some ⟨0, 10⟩⟩ }

/-- The state of `doubleVisitRun` after the second hour-10 visit's
sample (the 11→10 boundary finalized the sampleless hour 11 as a
no-op). -/
def dstage3 : MonitorState :=
  { speeds := [⟨⟨0, 10⟩, 10, 100, 100⟩, ⟨⟨25, 10⟩, 10, 20, 30⟩]
    disconnections := []
    hourly_averages := [(10, ⟨100, 100, 1⟩)]
    current_hour := 10
    max_download := ⟨100, some ⟨0, 10⟩⟩
    min_download := ⟨some 20, some ⟨25, 10⟩⟩
    max_upload := ⟨100, some ⟨0, 10⟩⟩
    min_upload := ⟨some 30, some ⟨25, 10⟩⟩ }

/-- The final state of `doubleVisitRun`: the terminal finalization of
hour 10 averaged BOTH visits' samples together (the log is never
cleared), overwriting the first visit's entry with the cumulative
average. -/
def dstage4 : MonitorState :=
  { speeds := [⟨⟨0, 10⟩, 10, 100, 100⟩, ⟨⟨25, 10⟩, 10, 20, 30⟩]
    disconnections := []
    hourly_averages := [(10, ⟨60, 65, 2⟩)]
    current_hour := 10
    max_download := ⟨100, some ⟨0, 10⟩⟩
    min_download := ⟨some 20, some ⟨25, 10⟩⟩
    max_upload := ⟨100, some ⟨0, 10⟩⟩
    min_upload := ⟨some 30, some ⟨25, 10⟩⟩ }

/-! ### Helper lemmas -/

theorem updMaxDownload_def (d : ℚ) (t : DateTime) (s : MonitorState) :
    updMaxDownload d t s =
      { s with max_download :=
          if d > s.max_download.speed then ⟨d, some t⟩ else s.max_download } := by
  unfold updMaxDownload
  by_cases h : d > s.max_download.speed <;> simp [h]

theorem updMinDownload_def (d : ℚ) (t : DateTime) (s : MonitorState) :
    updMinDownload d t s =
      { s with min_download :=
          if ltInf d s.min_download.speed then ⟨some d, some t⟩ else s.min_download } := by
  unfold updMinDownload
  by_cases h : ltInf d s.min_download.speed <;> simp [h]

theorem updMaxUpload_def (u : ℚ) (t : DateTime) (s : MonitorState) :
    updMaxUpload u t s =
      { s with max_upload :=
          if u > s.max_upload.speed then ⟨u, some t⟩ else s.max_upload } := by
  unfold updMaxUpload
  by_cases h : u > s.max_upload.speed <;> simp [h]

theorem updMinUpload_def (u : ℚ) (t : DateTime) (s : MonitorState) :
    updMinUpload u t s =
      { s with min_upload :=
          if ltInf u s.min_upload.speed then ⟨some u, some t⟩ else s.min_upload } := by
  unfold updMinUpload
  by_cases h : ltInf u s.min_upload.speed <;> simp [h]

/-- Characterisation of `update_speed_extremes` as one simultaneous record update: the four
sequential `if`s touch pairwise distinct fields, so each one reads the
caller's state. -/
theorem update_speed_extremes_def (d u : ℚ) (t : DateTime) (s : MonitorState) :
    update_speed_extremes d u t s =
      { s with
        max_download :=
          if d > s.max_download.speed then ⟨d, some t⟩ else s.max_download
        min_download :=
          if ltInf d s.min_download.speed then ⟨some d, some t⟩ else s.min_download
        max_upload :=
          if u > s.max_upload.speed then ⟨u, some t⟩ else s.max_upload
        min_upload :=
          if ltInf u s.min_upload.speed then ⟨some u, some t⟩ else s.min_upload } := by
  simp only [update_speed_extremes, updMaxDownload_def, updMinDownload_def,
    updMaxUpload_def, updMinUpload_def]

theorem calculate_hourly_average_speeds (s : MonitorState) :
    (calculate_hourly_average s).speeds = s.speeds := by
  unfold calculate_hourly_average
  split
  · rfl
  · dsimp only
    split <;> rfl

theorem calculate_hourly_average_disconnections (s : MonitorState) :
    (calculate_hourly_average s).disconnections = s.disconnections := by
  unfold calculate_hourly_average
  split
  · rfl
  · dsimp only
    split <;> rfl

theorem calculate_hourly_average_extremes (s : MonitorState) :
    (calculate_hourly_average s).max_download = s.max_download ∧
    (calculate_hourly_average s).min_download = s.min_download ∧
    (calculate_hourly_average s).max_upload = s.max_upload ∧
    (calculate_hourly_average s).min_upload = s.min_upload := by
  unfold calculate_hourly_average
  split
  · exact ⟨rfl, rfl, rfl, rfl⟩
  · dsimp only
    split <;> exact ⟨rfl, rfl, rfl, rfl⟩

/-- The two branches of `calculate_hourly_average`: either nothing was
accumulated for the tracked hour (empty log, or no matching sample) and
the state is untouched, or the matching samples of the FULL log are
averaged into the map. -/
theorem calculate_hourly_average_cases (s : MonitorState) :
    (s.speeds.filter (fun speed => speed.hour == s.current_hour) = [] ∧
      calculate_hourly_average s = s) ∨
    (s.speeds.filter (fun speed => speed.hour == s.current_hour) ≠ [] ∧
      (calculate_hourly_average s).hourly_averages =
        insertEntry s.current_hour
          ⟨listMean ((s.speeds.filter (fun speed => speed.hour == s.current_hour)).map (·.download)),
           listMean ((s.speeds.filter (fun speed => speed.hour == s.current_hour)).map (·.upload)),
           (s.speeds.filter (fun speed => speed.hour == s.current_hour)).length⟩
          s.hourly_averages) := by
  unfold calculate_hourly_average
  by_cases hnil : s.speeds = []
  · left
    refine ⟨by simp [hnil], by simp [hnil]⟩
  · simp only [hnil, if_false]
    by_cases hfil : s.speeds.filter (fun speed => speed.hour == s.current_hour) = []
    · left
      exact ⟨hfil, by simp [hfil]⟩
    · right
      exact ⟨hfil, by simp [hfil]⟩

theorem lookupHour_insertEntry_self (k : Fin 24) (v : HourlyAverage)
    (m : List (Fin 24 × HourlyAverage)) :
    lookupHour k (insertEntry k v m) = some v := by
  induction m with
  | nil => simp [insertEntry, lookupHour]
  | cons e rest ih =>
      obtain ⟨k2, v2⟩ := e
      by_cases h : k2 = k
      · simp [insertEntry, lookupHour, h]
      · simp [insertEntry, lookupHour, h, ih]

theorem lookupHour_insertEntry_ne (k k2 : Fin 24) (v : HourlyAverage)
    (m : List (Fin 24 × HourlyAverage)) (h : k2 ≠ k) :
    lookupHour k2 (insertEntry k v m) = lookupHour k2 m := by
  induction m with
  | nil => simp [insertEntry, lookupHour, Ne.symm h]
  | cons e rest ih =>
      obtain ⟨k3, v3⟩ := e
      by_cases h3 : k3 = k
      · subst h3
        simp [insertEntry, lookupHour, Ne.symm h]
      · simp [insertEntry, lookupHour, h3, ih]

theorem mem_insertEntry (k : Fin 24) (v : HourlyAverage)
    (m : List (Fin 24 × HourlyAverage)) (e : Fin 24 × HourlyAverage)
    (he : e ∈ insertEntry k v m) : e = (k, v) ∨ e ∈ m := by
  induction m with
  | nil =>
      simp [insertEntry] at he
      exact Or.inl he
  | cons e2 rest ih =>
      obtain ⟨k2, v2⟩ := e2
      by_cases h : k2 = k
      · simp [insertEntry, h] at he
        rcases he with he | he
        · exact Or.inl (by simp [he])
        · exact Or.inr (by simp [he])
      · simp [insertEntry, h] at he
        rcases he with he | he
        · exact Or.inr (by simp [he])
        · rcases ih he with h2 | h2
          · exact Or.inl h2
          · exact Or.inr (by simp [h2])

/-- Step lemma: `loopStep` touches the hourly-average map only through the
hour-rollover finalization. -/
theorem loopStep_hourly_averages (s : MonitorState) (now : DateTime)
    (probe : Option (ℚ × ℚ)) :
    (loopStep s now probe).hourly_averages = s.hourly_averages ∨
    (loopStep s now probe).hourly_averages =
      (calculate_hourly_average s).hourly_averages := by
  unfold loopStep
  rcases probe with _ | ⟨d, u⟩
  · by_cases h : now.hour ≠ s.current_hour
    · right
      simp [h]
    · left
      simp [h]
  · by_cases h : now.hour ≠ s.current_hour <;>
      [(right; simp only [if_pos h]); (left; simp only [if_neg h])] <;>
      · rw [update_speed_extremes_def]
        by_cases hz : d ≠ 0 ∧ u ≠ 0 <;> simp [hz]

theorem le_foldl_max (a : ℚ) (l : List ℚ) : a ≤ l.foldl max a := by
  induction l generalizing a with
  | nil => exact le_refl a
  | cons x xs ih => exact le_trans (le_max_left a x) (ih (max a x))

theorem mem_le_foldl_max (a : ℚ) (l : List ℚ) :
    ∀ x ∈ l, x ≤ l.foldl max a := by
  induction l generalizing a with
  | nil => intro x hx; cases hx
  | cons y ys ih =>
      intro x hx
      rcases List.mem_cons.mp hx with h | h
      · subst h
        exact le_trans (le_max_right a x) (le_foldl_max (max a x) ys)
      · exact ih (max a y) x h

theorem foldl_max_mem (a : ℚ) (l : List ℚ) :
    l.foldl max a = a ∨ l.foldl max a ∈ l := by
  induction l generalizing a with
  | nil => exact Or.inl rfl
  | cons x xs ih =>
      rcases ih (max a x) with h | h
      · rcases max_choice a x with hm | hm
        · exact Or.inl (by rw [List.foldl_cons, h, hm])
        · refine Or.inr ?_
          rw [List.foldl_cons, h, hm]
          exact List.mem_cons_self x xs
      · exact Or.inr (List.mem_cons_of_mem x h)

theorem foldl_min_le (a : ℚ) (l : List ℚ) : l.foldl min a ≤ a := by
  induction l generalizing a with
  | nil => exact le_refl a
  | cons x xs ih => exact le_trans (ih (min a x)) (min_le_left a x)

theorem foldl_min_le_mem (a : ℚ) (l : List ℚ) :
    ∀ x ∈ l, l.foldl min a ≤ x := by
  induction l generalizing a with
  | nil => intro x hx; cases hx
  | cons y ys ih =>
      intro x hx
      rcases List.mem_cons.mp hx with h | h
      · subst h
        exact le_trans (foldl_min_le (min a x) ys) (min_le_right a x)
      · exact ih (min a y) x h

theorem foldl_min_mem (a : ℚ) (l : List ℚ) :
    l.foldl min a = a ∨ l.foldl min a ∈ l := by
  induction l generalizing a with
  | nil => exact Or.inl rfl
  | cons x xs ih =>
      rcases ih (min a x) with h | h
      · rcases min_choice a x with hm | hm
        · exact Or.inl (by rw [List.foldl_cons, h, hm])
        · refine Or.inr ?_
          rw [List.foldl_cons, h, hm]
          exact List.mem_cons_self x xs
      · exact Or.inr (List.mem_cons_of_mem x h)

/-- The max-download comparison-and-replace, at the level of the stored
speed: keeping the current value on a tie or a loss is exactly `max`. -/
theorem updMaxDownload_speed (d : ℚ) (t : DateTime) (s : MonitorState) :
    (updMaxDownload d t s).max_download.speed = max s.max_download.speed d := by
  rw [updMaxDownload_def]
  by_cases h : d > s.max_download.speed
  · simp [h, max_eq_right (le_of_lt h)]
  · simp [h, max_eq_left (le_of_not_lt h)]

/-- One min-comparison step on the stored min speed, with `none` the
`inf` sentinel. -/
def minUpd (cur : Option ℚ) (x : ℚ) : Option ℚ :=
  match cur with
  | none => some x
  | some m => if x < m then some x else some m

theorem minUpd_some (m x : ℚ) : minUpd (some m) x = some (min m x) := by
  unfold minUpd
  by_cases h : x < m
  · simp [h, min_eq_right (le_of_lt h)]
  · simp [h, min_eq_left (le_of_not_lt h)]

theorem updMinDownload_speed (d : ℚ) (t : DateTime) (s : MonitorState) :
    (updMinDownload d t s).min_download.speed = minUpd s.min_download.speed d := by
  rw [updMinDownload_def]
  rcases hm : s.min_download.speed with _ | m
  · simp [ltInf, hm, minUpd]
  · by_cases h : d < m
    · simp [ltInf, hm, h, minUpd]
    · simp [ltInf, hm, h, minUpd]

theorem updMaxUpload_speed (u : ℚ) (t : DateTime) (s : MonitorState) :
    (updMaxUpload u t s).max_upload.speed = max s.max_upload.speed u := by
  rw [updMaxUpload_def]
  by_cases h : u > s.max_upload.speed
  · simp [h, max_eq_right (le_of_lt h)]
  · simp [h, max_eq_left (le_of_not_lt h)]

theorem updMinUpload_speed (u : ℚ) (t : DateTime) (s : MonitorState) :
    (updMinUpload u t s).min_upload.speed = minUpd s.min_upload.speed u := by
  rw [updMinUpload_def]
  rcases hm : s.min_upload.speed with _ | m
  · simp [ltInf, hm, minUpd]
  · by_cases h : u < m
    · simp [ltInf, hm, h, minUpd]
    · simp [ltInf, hm, h, minUpd]

theorem update_speed_extremes_max_download (d u : ℚ) (t : DateTime) (s : MonitorState) :
    (update_speed_extremes d u t s).max_download.speed =
      max s.max_download.speed d := by
  rw [update_speed_extremes_def]
  by_cases h : d > s.max_download.speed
  · simp [h, max_eq_right (le_of_lt h)]
  · simp [h, max_eq_left (le_of_not_lt h)]

theorem update_speed_extremes_min_download (d u : ℚ) (t : DateTime) (s : MonitorState) :
    (update_speed_extremes d u t s).min_download.speed =
      minUpd s.min_download.speed d := by
  rw [update_speed_extremes_def]
  rcases hm : s.min_download.speed with _ | m
  · simp [ltInf, hm, minUpd]
  · by_cases h : d < m <;> simp [ltInf, hm, h, minUpd]

theorem update_speed_extremes_max_upload (d u : ℚ) (t : DateTime) (s : MonitorState) :
    (update_speed_extremes d u t s).max_upload.speed =
      max s.max_upload.speed u := by
  rw [update_speed_extremes_def]
  by_cases h : u > s.max_upload.speed
  · simp [h, max_eq_right (le_of_lt h)]
  · simp [h, max_eq_left (le_of_not_lt h)]

theorem update_speed_extremes_min_upload (d u : ℚ) (t : DateTime) (s : MonitorState) :
    (update_speed_extremes d u t s).min_upload.speed =
      minUpd s.min_upload.speed u := by
  rw [update_speed_extremes_def]
  rcases hm : s.min_upload.speed with _ | m
  · simp [ltInf, hm, minUpd]
  · by_cases h : u < m <;> simp [ltInf, hm, h, minUpd]

/-- The stored max-download speed after a run of measurements is the
fold of `max` over the observed downloads. -/
theorem updateAll_max_download (L : List Meas) (s : MonitorState) :
    (updateAll L s).max_download.speed =
      (L.map (·.download)).foldl max s.max_download.speed := by
  induction L generalizing s with
  | nil => rfl
  | cons m ms ih =>
      show (updateAll ms (update_speed_extremes m.download m.upload m.time s)).max_download.speed = _
      rw [ih, update_speed_extremes_max_download]
      rfl

theorem updateAll_min_download (L : List Meas) (s : MonitorState) :
    (updateAll L s).min_download.speed =
      (L.map (·.download)).foldl minUpd s.min_download.speed := by
  induction L generalizing s with
  | nil => rfl
  | cons m ms ih =>
      show (updateAll ms (update_speed_extremes m.download m.upload m.time s)).min_download.speed = _
      rw [ih, update_speed_extremes_min_download]
      rfl

theorem updateAll_max_upload (L : List Meas) (s : MonitorState) :
    (updateAll L s).max_upload.speed =
      (L.map (·.upload)).foldl max s.max_upload.speed := by
  induction L generalizing s with
  | nil => rfl
  | cons m ms ih =>
      show (updateAll ms (update_speed_extremes m.download m.upload m.time s)).max_upload.speed = _
      rw [ih, update_speed_extremes_max_upload]
      rfl

theorem updateAll_min_upload (L : List Meas) (s : MonitorState) :
    (updateAll L s).min_upload.speed =
      (L.map (·.upload)).foldl minUpd s.min_upload.speed := by
  induction L generalizing s with
  | nil => rfl
  | cons m ms ih =>
      show (updateAll ms (update_speed_extremes m.download m.upload m.time s)).min_upload.speed = _
      rw [ih, update_speed_extremes_min_upload]
      rfl

theorem foldl_minUpd_some (xs : List ℚ) (a : ℚ) :
    xs.foldl minUpd (some a) = some (xs.foldl min a) := by
  induction xs generalizing a with
  | nil => rfl
  | cons x l ih => rw [List.foldl_cons, List.foldl_cons, minUpd_some, ih]

/-- A `max`-fold over nonnegative observations starting from the `0`
sentinel bounds every observation and is attained by one of them. -/
theorem max_fold_spec (D : List ℚ) (hne : D ≠ []) (hpos : ∀ x ∈ D, 0 ≤ x) :
    (∀ x ∈ D, x ≤ D.foldl max 0) ∧ D.foldl max 0 ∈ D := by
  refine ⟨mem_le_foldl_max 0 D, ?_⟩
  rcases foldl_max_mem 0 D with h | h
  · rcases D with _ | ⟨x, xs⟩
    · exact absurd rfl hne
    · have hx : x ≤ (x :: xs).foldl max 0 :=
        mem_le_foldl_max 0 (x :: xs) x (List.mem_cons_self x xs)
      rw [h] at hx
      have hx0 : x = 0 := le_antisymm hx (hpos x (List.mem_cons_self x xs))
      rw [h, ← hx0]
      exact List.mem_cons_self x xs
  · exact h

/-- A `minUpd`-fold over a nonempty observation list starting from the
`inf` sentinel (`none`) lands on a finite value that bounds every
observation from below and is attained by one of them. -/
theorem min_fold_spec (D : List ℚ) (hne : D ≠ []) :
    ∃ v, D.foldl minUpd none = some v ∧ (∀ x ∈ D, v ≤ x) ∧ v ∈ D := by
  rcases D with _ | ⟨x, xs⟩
  · exact absurd rfl hne
  · refine ⟨xs.foldl min x, foldl_minUpd_some xs x, ?_, ?_⟩
    · intro y hy
      rcases List.mem_cons.mp hy with h | h
      · rw [h]
        exact foldl_min_le x xs
      · exact foldl_min_le_mem x xs y h
    · rcases foldl_min_mem x xs with h | h
      · rw [h]
        exact List.mem_cons_self x xs
      · exact List.mem_cons_of_mem x h

/-- A single concrete measurement (50 Mbps down, 10 Mbps up, hour 10)
used to instantiate hypothesis-bearing theorems. -/
def measDemo : Meas := ⟨50, 10, ⟨0, 10⟩⟩

/-- A single concrete sample for the single-sample pattern analysis. -/
def singleSample : Sample := ⟨⟨0, 10⟩, 10, 50, 10⟩

/-- A state whose four extremes were all set by one 50/10 measurement,
used to exercise the tie case. -/
def tieDemoState : MonitorState := update_speed_extremes 50 10 ⟨0, 10⟩ (initState 10)

/-- The state after the first hour-10 visit of `doubleVisitRun`: one
logged sample (100/100) and nothing finalized yet. -/
def firstVisitState : MonitorState := loopStep (initState 10) ⟨0, 10⟩ (some (100, 100))

theorem update_speed_extremes_speeds (d u : ℚ) (t : DateTime) (s : MonitorState) :
    (update_speed_extremes d u t s).speeds = s.speeds := by
  rw [update_speed_extremes_def]

theorem update_speed_extremes_disconnections (d u : ℚ) (t : DateTime) (s : MonitorState) :
    (update_speed_extremes d u t s).disconnections = s.disconnections := by
  rw [update_speed_extremes_def]

/-- A loop iteration within the tracked hour on a successful nonzero
measurement: extremes update, then the sample is appended. -/
theorem loopStep_same_hour (s : MonitorState) (now : DateTime) (d u : ℚ)
    (hh : now.hour = s.current_hour) (hd : d ≠ 0) (hu : u ≠ 0) :
    loopStep s now (some (d, u)) =
      { update_speed_extremes d u now s with
          speeds := s.speeds ++ [⟨now, now.hour, d, u⟩] } := by
  unfold loopStep
  dsimp only
  rw [if_neg (not_not_intro hh), if_pos ⟨hd, hu⟩, update_speed_extremes_speeds]

/-- A loop iteration that crosses an hour boundary on a successful
nonzero measurement: finalize the previous hour, advance the tracked
hour, update the extremes, append the sample. -/
theorem loopStep_new_hour (s : MonitorState) (now : DateTime) (d u : ℚ)
    (hh : now.hour ≠ s.current_hour) (hd : d ≠ 0) (hu : u ≠ 0) :
    loopStep s now (some (d, u)) =
      { update_speed_extremes d u now
          { calculate_hourly_average s with current_hour := now.hour } with
        speeds := s.speeds ++ [⟨now, now.hour, d, u⟩] } := by
  unfold loopStep
  dsimp only
  rw [if_pos hh, if_pos ⟨hd, hu⟩, update_speed_extremes_speeds]
  dsimp only
  rw [calculate_hourly_average_speeds]

/-- A loop iteration that crosses an hour boundary on a failed
measurement: only the finalization and hour advance happen. -/
theorem loopStep_new_hour_fail (s : MonitorState) (now : DateTime)
    (hh : now.hour ≠ s.current_hour) :
    loopStep s now none =
      { calculate_hourly_average s with current_hour := now.hour } := by
  unfold loopStep
  dsimp only
  rw [if_pos hh]

/-- A loop iteration within the tracked hour whose measured pair fails
Python truthiness (`download_speed and upload_speed`): the extremes are
updated but no sample is appended. -/
theorem loopStep_same_hour_drop (s : MonitorState) (now : DateTime) (d u : ℚ)
    (hh : now.hour = s.current_hour) (hz : ¬(d ≠ 0 ∧ u ≠ 0)) :
    loopStep s now (some (d, u)) = update_speed_extremes d u now s := by
  unfold loopStep
  dsimp only
  rw [if_neg (not_not_intro hh), if_neg hz]

/-- Finalizing when no logged sample matches the tracked hour is a
no-op. -/
theorem calculate_hourly_average_of_empty (s : MonitorState)
    (h : s.speeds.filter (fun speed => speed.hour == s.current_hour) = []) :
    calculate_hourly_average s = s := by
  rcases calculate_hourly_average_cases s with ⟨_, heq⟩ | ⟨hne, _⟩
  · exact heq
  · exact absurd h hne

/-- Finalizing when some logged sample matches the tracked hour writes
the means over all matching samples of the full log. -/
theorem calculate_hourly_average_eq (s : MonitorState)
    (hne : s.speeds.filter (fun speed => speed.hour == s.current_hour) ≠ []) :
    calculate_hourly_average s =
      { s with hourly_averages := insertEntry s.current_hour (hourEntry s) s.hourly_averages } := by
  have hnil : s.speeds ≠ [] := by
    intro h
    rw [h] at hne
    exact hne rfl
  unfold calculate_hourly_average
  rw [if_neg hnil]
  dsimp only
  rw [if_neg hne]
  rfl

theorem state1_eval : loopStep (initState 10) ⟨0, 10⟩ (some (50, 10)) = stage1 := by
  rw [loopStep_same_hour (initState 10) ⟨0, 10⟩ 50 10 (by decide) (by decide) (by decide),
    update_speed_extremes_def]
  norm_num [initState, stage1, ltInf]

theorem state2_eval : loopStep stage1 ⟨1, 10⟩ (some (80, 15)) = stage2 := by
  rw [loopStep_same_hour stage1 ⟨1, 10⟩ 80 15 (by decide) (by decide) (by decide),
    update_speed_extremes_def]
  norm_num [stage1, stage2, ltInf]

theorem state3_eval : loopStep stage2 ⟨2, 11⟩ (some (20, 5)) = stage3 := by
  have hfil : stage2.speeds.filter (fun speed => speed.hour == stage2.current_hour) =
      [⟨⟨0, 10⟩, 10, 50, 10⟩, ⟨⟨1, 10⟩, 10, 80, 15⟩] := by decide
  rw [loopStep_new_hour stage2 ⟨2, 11⟩ 20 5 (by decide) (by decide) (by decide),
    calculate_hourly_average_eq stage2 (by decide), update_speed_extremes_def]
  simp only [hourEntry, hfil]
  norm_num [stage2, stage3, ltInf, insertEntry, listMean]

theorem scenarioRun_eval : scenarioRun = stage4 := by
  unfold scenarioRun
  rw [state1_eval, state2_eval, state3_eval, calculate_hourly_average_eq stage3 (by decide)]
  have hfil : stage3.speeds.filter (fun speed => speed.hour == stage3.current_hour) =
      [⟨⟨2, 11⟩, 11, 20, 5⟩] := by decide
  simp only [hourEntry, hfil]
  norm_num [stage3, stage4, insertEntry, listMean, (by decide : ¬((10 : Fin 24) = 11))]

theorem dstate1_eval : loopStep (initState 10) ⟨0, 10⟩ (some (100, 100)) = dstage1 := by
  rw [loopStep_same_hour (initState 10) ⟨0, 10⟩ 100 100 (by decide) (by decide) (by decide),
    update_speed_extremes_def]
  norm_num [initState, dstage1, ltInf]

theorem dstate2_eval : loopStep dstage1 ⟨1, 11⟩ none = dstage2 := by
  have hfil : dstage1.speeds.filter (fun speed => speed.hour == dstage1.current_hour) =
      [⟨⟨0, 10⟩, 10, 100, 100⟩] := by decide
  rw [loopStep_new_hour_fail dstage1 ⟨1, 11⟩ (by decide),
    calculate_hourly_average_eq dstage1 (by decide)]
  simp only [hourEntry, hfil]
  norm_num [dstage1, dstage2, insertEntry, listMean]

theorem dstate3_eval : loopStep dstage2 ⟨25, 10⟩ (some (20, 30)) = dstage3 := by
  rw [loopStep_new_hour dstage2 ⟨25, 10⟩ 20 30 (by decide) (by decide) (by decide),
    calculate_hourly_average_of_empty dstage2 (by decide), update_speed_extremes_def]
  norm_num [dstage2, dstage3, ltInf]

theorem doubleVisitRun_eval : doubleVisitRun = dstage4 := by
  unfold doubleVisitRun
  rw [dstate1_eval, dstate2_eval, dstate3_eval, calculate_hourly_average_eq dstage3 (by decide)]
  have hfil : dstage3.speeds.filter (fun speed => speed.hour == dstage3.current_hour) =
      [⟨⟨0, 10⟩, 10, 100, 100⟩, ⟨⟨25, 10⟩, 10, 20, 30⟩] := by decide
  simp only [hourEntry, hfil]
  norm_num [dstage3, dstage4, insertEntry, listMean]

theorem analyze_scenario_peak_low :
    (analyze_patterns stage4.speeds).map Patterns.peak_download = some (some 10) ∧
    (analyze_patterns stage4.speeds).map Patterns.low_download = some (some 11) := by
  have hne : stage4.speeds ≠ [] := by decide
  have hhours : hoursOf stage4.speeds = [10, 11] := by decide
  have hg10 : groupVals stage4.speeds 10 (fun sp => sp.download) = [50, 80] := by decide
  have hg11 : groupVals stage4.speeds 11 (fun sp => sp.download) = [20] := by decide
  have hm10 : listMean [(50 : ℚ), 80] = 65 := by norm_num [listMean]
  have hm11 : listMean [(20 : ℚ)] = 20 := by norm_num [listMean]
  unfold analyze_patterns
  rw [if_neg hne]
  dsimp only
  rw [hhours]
  simp only [idxmaxBy, idxminBy, List.foldl_cons, List.foldl_nil, hg10, hg11, hm10, hm11,
    Option.map_some']
  norm_num

/-! ### Claims -/

/-- C1 (counterexample): on a log holding exactly one sample, the
stability scores `analyze_patterns` computes are `NaN` (`none`), not
`0`: pandas `std` with its default `ddof=1` is `NaN` on a single-row
group, and the `NaN`-skipping stability mean of an all-`NaN` column is
itself `NaN`. -/
theorem single_sample_stability_is_nan :
    (analyze_patterns [singleSample]).map Patterns.stability_download = some none ∧
    (analyze_patterns [singleSample]).map Patterns.stability_upload = some none ∧
    (analyze_patterns [singleSample]).map Patterns.stability_download ≠ some (some 0) ∧
    (analyze_patterns [singleSample]).map Patterns.stability_upload ≠ some (some 0) := by
  decide

/-- C1 (amended): on a log holding exactly one sample, `analyze_patterns`
returns that sample's hour as both the peak hour and the low hour for
both directions, but the stability score of each direction is the
undefined `NaN` (`none`), not `0`: a single-sample hour contributes an
undefined standard deviation which the stability mean skips (second
conjunct), rather than contributing `0`. -/
theorem analyze_patterns_single_sample (ts : ℚ) (h : Fin 24) (d u : ℚ) :
    analyze_patterns [⟨⟨ts, h⟩, h, d, u⟩] =
      some ⟨some h, some h, some h, some h, none, none⟩ ∧
    ∀ xs : List (Option ℚ), nanmean (none :: xs) = nanmean xs := by
  refine ⟨?_, fun xs => rfl⟩
  fin_cases h <;> rfl

/-- C2: after any nonempty run of (nonnegative) measurements from the
fresh state, each recorded max speed bounds every observed value of its
direction from above and equals one of them, and each recorded min
speed is finite, bounds every observed value from below and equals one
of them. -/
theorem extremes_bound_and_attained (L : List Meas) (h0 : Fin 24) (hne : L ≠ [])
    (hpos : ∀ m ∈ L, 0 ≤ m.download ∧ 0 ≤ m.upload) :
    ((∀ m ∈ L, m.download ≤ (updateAll L (initState h0)).max_download.speed) ∧
      (∃ m ∈ L, (updateAll L (initState h0)).max_download.speed = m.download)) ∧
    (∃ v, (updateAll L (initState h0)).min_download.speed = some v ∧
      (∀ m ∈ L, v ≤ m.download) ∧ ∃ m ∈ L, v = m.download) ∧
    ((∀ m ∈ L, m.upload ≤ (updateAll L (initState h0)).max_upload.speed) ∧
      (∃ m ∈ L, (updateAll L (initState h0)).max_upload.speed = m.upload)) ∧
    (∃ v, (updateAll L (initState h0)).min_upload.speed = some v ∧
      (∀ m ∈ L, v ≤ m.upload) ∧ ∃ m ∈ L, v = m.upload) := by
  have hD : L.map (·.download) ≠ [] := fun h => hne (List.map_eq_nil_iff.mp h)
  have hU : L.map (·.upload) ≠ [] := fun h => hne (List.map_eq_nil_iff.mp h)
  have hDpos : ∀ x ∈ L.map (·.download), 0 ≤ x := by
    intro x hx
    rcases List.mem_map.mp hx with ⟨m, hm, rfl⟩
    exact (hpos m hm).1
  have hUpos : ∀ x ∈ L.map (·.upload), 0 ≤ x := by
    intro x hx
    rcases List.mem_map.mp hx with ⟨m, hm, rfl⟩
    exact (hpos m hm).2
  rw [updateAll_max_download, updateAll_min_download, updateAll_max_upload,
    updateAll_min_upload]
  simp only [initState]
  obtain ⟨hmaxD1, hmaxD2⟩ := max_fold_spec (L.map (·.download)) hD hDpos
  obtain ⟨hmaxU1, hmaxU2⟩ := max_fold_spec (L.map (·.upload)) hU hUpos
  obtain ⟨vD, hvD, hvD1, hvD2⟩ := min_fold_spec (L.map (·.download)) hD
  obtain ⟨vU, hvU, hvU1, hvU2⟩ := min_fold_spec (L.map (·.upload)) hU
  refine ⟨⟨?_, ?_⟩, ⟨vD, hvD, ?_, ?_⟩, ⟨?_, ?_⟩, ⟨vU, hvU, ?_, ?_⟩⟩
  · intro m hm
    exact hmaxD1 m.download (List.mem_map_of_mem _ hm)
  · rcases List.mem_map.mp hmaxD2 with ⟨m, hm, hEq⟩
    exact ⟨m, hm, hEq.symm⟩
  · intro m hm
    exact hvD1 m.download (List.mem_map_of_mem _ hm)
  · rcases List.mem_map.mp hvD2 with ⟨m, hm, hEq⟩
    exact ⟨m, hm, hEq.symm⟩
  · intro m hm
    exact hmaxU1 m.upload (List.mem_map_of_mem _ hm)
  · rcases List.mem_map.mp hmaxU2 with ⟨m, hm, hEq⟩
    exact ⟨m, hm, hEq.symm⟩
  · intro m hm
    exact hvU1 m.upload (List.mem_map_of_mem _ hm)
  · rcases List.mem_map.mp hvU2 with ⟨m, hm, hEq⟩
    exact ⟨m, hm, hEq.symm⟩

/-- Witness for C2 at the one-measurement run `[measDemo]`. -/
theorem extremes_bound_and_attained_witness :
    (([measDemo] : List Meas) ≠ [] ∧
      ∀ m ∈ ([measDemo] : List Meas), 0 ≤ m.download ∧ 0 ≤ m.upload) ∧
    (((∀ m ∈ [measDemo], m.download ≤ (updateAll [measDemo] (initState 10)).max_download.speed) ∧
      (∃ m ∈ [measDemo], (updateAll [measDemo] (initState 10)).max_download.speed = m.download)) ∧
    (∃ v, (updateAll [measDemo] (initState 10)).min_download.speed = some v ∧
      (∀ m ∈ [measDemo], v ≤ m.download) ∧ ∃ m ∈ [measDemo], v = m.download) ∧
    ((∀ m ∈ [measDemo], m.upload ≤ (updateAll [measDemo] (initState 10)).max_upload.speed) ∧
      (∃ m ∈ [measDemo], (updateAll [measDemo] (initState 10)).max_upload.speed = m.upload)) ∧
    (∃ v, (updateAll [measDemo] (initState 10)).min_upload.speed = some v ∧
      (∀ m ∈ [measDemo], v ≤ m.upload) ∧ ∃ m ∈ [measDemo], v = m.upload)) :=
  ⟨⟨by decide, by decide⟩,
    extremes_bound_and_attained [measDemo] 10 (by decide) (by decide)⟩

theorem foldl_add_duration (l : List DisconnectionEvent) (a : ℚ) :
    l.foldl (fun total_duration d => total_duration + d.duration) a =
      a + (l.map (·.duration)).sum := by
  induction l generalizing a with
  | nil => simp
  | cons e rest ih => rw [List.foldl_cons, ih, List.map_cons, List.sum_cons, add_assoc]

/-- C3: `calculate_total_downtime` returns exactly the sum of the
`end - start` durations over the recorded disconnection events (every
recorded event's `duration` field is `end - start` by construction in
`track_disconnection`), and returns the zero duration on an empty
disconnection list. -/
theorem total_downtime_eq_sum (s : MonitorState)
    (h : ∀ e ∈ s.disconnections, e.duration = e.end_.time - e.start.time) :
    calculate_total_downtime s =
      (s.disconnections.map (fun e => e.end_.time - e.start.time)).sum ∧
    (s.disconnections = [] → calculate_total_downtime s = 0) := by
  constructor
  · unfold calculate_total_downtime
    rw [foldl_add_duration, zero_add, List.map_congr_left h]
  · intro h2
    simp [calculate_total_downtime, h2]

/-- Witness for C3 on the specification's 42-second outage scenario:
connectivity lost at time 0, restored at time 42. -/
theorem total_downtime_eq_sum_witness :
    (∀ e ∈ (track_disconnection ⟨0, 10⟩ ⟨42, 10⟩ (initState 10)).disconnections,
      e.duration = e.end_.time - e.start.time) ∧
    (calculate_total_downtime (track_disconnection ⟨0, 10⟩ ⟨42, 10⟩ (initState 10)) =
      ((track_disconnection ⟨0, 10⟩ ⟨42, 10⟩ (initState 10)).disconnections.map
        (fun e => e.end_.time - e.start.time)).sum ∧
    ((track_disconnection ⟨0, 10⟩ ⟨42, 10⟩ (initState 10)).disconnections = [] →
      calculate_total_downtime (track_disconnection ⟨0, 10⟩ ⟨42, 10⟩ (initState 10)) = 0)) :=
  ⟨by simp [track_disconnection, initState],
    total_downtime_eq_sum (track_disconnection ⟨0, 10⟩ ⟨42, 10⟩ (initState 10))
      (by simp [track_disconnection, initState])⟩

/-- C4: finalizing an hour with no accumulated samples leaves the state
(and in particular the hourly-average map) unchanged, and the invariant
that every entry of the map carries a sample count of at least 1 is
preserved by the finalization and by every loop iteration. -/
theorem hourly_map_no_empty_entry (s s2 : MonitorState) (now : DateTime)
    (probe : Option (ℚ × ℚ))
    (hempty : s.speeds.filter (fun speed => speed.hour == s.current_hour) = [])
    (hinv : ∀ e ∈ s2.hourly_averages, 1 ≤ e.2.samples) :
    calculate_hourly_average s = s ∧
    (∀ e ∈ (calculate_hourly_average s2).hourly_averages, 1 ≤ e.2.samples) ∧
    (∀ e ∈ (loopStep s2 now probe).hourly_averages, 1 ≤ e.2.samples) := by
  have hcalc : ∀ e ∈ (calculate_hourly_average s2).hourly_averages, 1 ≤ e.2.samples := by
    rcases calculate_hourly_average_cases s2 with ⟨_, heq⟩ | ⟨hne, hmap⟩
    · rw [heq]
      exact hinv
    · intro e he
      rw [hmap] at he
      rcases mem_insertEntry _ _ _ _ he with he2 | he2
      · rw [he2]
        exact List.length_pos.mpr hne
      · exact hinv e he2
  refine ⟨?_, hcalc, ?_⟩
  · rcases calculate_hourly_average_cases s with ⟨_, heq⟩ | ⟨hne, _⟩
    · exact heq
    · exact absurd hempty hne
  · rcases loopStep_hourly_averages s2 now probe with heq | heq
    · rw [heq]
      exact hinv
    · rw [heq]
      exact hcalc

/-- Witness for C4: the fresh state has no matching samples, and the
three-sample scenario state satisfies and preserves the invariant. -/
theorem hourly_map_no_empty_entry_witness :
    ((initState 10).speeds.filter
        (fun speed => speed.hour == (initState 10).current_hour) = [] ∧
      (∀ e ∈ scenarioRun.hourly_averages, 1 ≤ e.2.samples)) ∧
    (calculate_hourly_average (initState 10) = initState 10 ∧
      (∀ e ∈ (calculate_hourly_average scenarioRun).hourly_averages, 1 ≤ e.2.samples) ∧
      (∀ e ∈ (loopStep scenarioRun ⟨3, 12⟩ (some (1, 2))).hourly_averages, 1 ≤ e.2.samples)) :=
  ⟨⟨by decide, by decide⟩,
    hourly_map_no_empty_entry (initState 10) scenarioRun ⟨3, 12⟩ (some (1, 2))
      (by decide) (by decide)⟩

/-- C5: `analyze_patterns` on the empty sample log returns `None`
rather than raising, and the whole (total, hence non-raising)
report-building path on a fresh state with zero samples and zero
disconnections produces the report with no pattern section, zero total
downtime, empty logs and the extremes at their sentinel initial
values. -/
theorem empty_run_report_graceful (h0 : Fin 24) :
    analyze_patterns [] = none ∧
    generate_report (initState h0) =
      { patterns := none
        total_downtime := 0
        max_download := ⟨0, none⟩
        min_download := ⟨none, none⟩
        max_upload := ⟨0, none⟩
        min_upload := ⟨none, none⟩
        disconnections := []
        hourly_averages := [] } :=
  ⟨rfl, rfl⟩

/-- C6: the specification's three-sample scenario, replayed through
extremes updates, the 10→11 hourly finalization and the terminal one:
max download 80 stamped in hour 10, min download 20 stamped in hour 11,
hourly averages %7b10 ↦ (65, 12.5, 2), 11 ↦ (20, 5, 1)%7d, peak download
hour 10 and low download hour 11. -/
theorem scenario_three_samples :
    scenarioRun.max_download.speed = 80 ∧
    scenarioRun.max_download.timestamp = some ⟨1, 10⟩ ∧
    scenarioRun.min_download.speed = some 20 ∧
    scenarioRun.min_download.timestamp = some ⟨2, 11⟩ ∧
    lookupHour 10 scenarioRun.hourly_averages = some ⟨65, 25 / 2, 2⟩ ∧
    lookupHour 11 scenarioRun.hourly_averages = some ⟨20, 5, 1⟩ ∧
    (analyze_patterns scenarioRun.speeds).map Patterns.peak_download = some (some 10) ∧
    (analyze_patterns scenarioRun.speeds).map Patterns.low_download = some (some 11) := by
  rw [scenarioRun_eval]
  exact ⟨rfl, rfl, rfl, rfl, rfl, rfl, analyze_scenario_peak_low.1, analyze_scenario_peak_low.2⟩

/-- C7: a measurement exactly equal to a currently recorded extreme
leaves that extreme entry entirely unchanged — both its speed and its
timestamp — because all four comparisons are strict; the first
occurrence of an extreme value wins. -/
theorem tie_preserves_extremes (s : MonitorState) (d u : ℚ) (t : DateTime) :
    (d = s.max_download.speed →
      (update_speed_extremes d u t s).max_download = s.max_download) ∧
    (s.min_download.speed = some d →
      (update_speed_extremes d u t s).min_download = s.min_download) ∧
    (u = s.max_upload.speed →
      (update_speed_extremes d u t s).max_upload = s.max_upload) ∧
    (s.min_upload.speed = some u →
      (update_speed_extremes d u t s).min_upload = s.min_upload) := by
  rw [update_speed_extremes_def]
  refine ⟨?_, ?_, ?_, ?_⟩ <;> intro h
  · simp [← h]
  · simp [ltInf, h]
  · simp [← h]
  · simp [ltInf, h]

/-- Witness for C7 at a state whose four extremes were all set by one
50/10 measurement, hit again by an identical 50/10 measurement at a
later time. -/
theorem tie_preserves_extremes_witness :
    ((50 : ℚ) = tieDemoState.max_download.speed ∧
      tieDemoState.min_download.speed = some 50 ∧
      (10 : ℚ) = tieDemoState.max_upload.speed ∧
      tieDemoState.min_upload.speed = some 10) ∧
    ((update_speed_extremes 50 10 ⟨5, 11⟩ tieDemoState).max_download = tieDemoState.max_download ∧
      (update_speed_extremes 50 10 ⟨5, 11⟩ tieDemoState).min_download = tieDemoState.min_download ∧
      (update_speed_extremes 50 10 ⟨5, 11⟩ tieDemoState).max_upload = tieDemoState.max_upload ∧
      (update_speed_extremes 50 10 ⟨5, 11⟩ tieDemoState).min_upload = tieDemoState.min_upload) :=
  ⟨⟨by decide, by decide, by decide, by decide⟩,
    ⟨(tie_preserves_extremes tieDemoState 50 10 ⟨5, 11⟩).1 (by decide),
      (tie_preserves_extremes tieDemoState 50 10 ⟨5, 11⟩).2.1 (by decide),
      (tie_preserves_extremes tieDemoState 50 10 ⟨5, 11⟩).2.2.1 (by decide),
      (tie_preserves_extremes tieDemoState 50 10 ⟨5, 11⟩).2.2.2 (by decide)⟩⟩

/-- C8 (counterexample): in the 25-hour run `doubleVisitRun` that
visits hour-of-day 10 twice (samples 100/100, then 20/30 after the
wrap), the second finalize for hour 10 stores the cumulative average
(60, 65, count 2) over BOTH visits — not (20, 30, count 1) as it would
if finalization read a bucket cleared after the first finalize. -/
theorem second_finalize_is_cumulative_cex :
    lookupHour 10 doubleVisitRun.hourly_averages = some ⟨60, 65, 2⟩ ∧
    lookupHour 10 doubleVisitRun.hourly_averages ≠ some ⟨20, 30, 1⟩ := by
  rw [doubleVisitRun_eval]
  exact ⟨rfl, by decide⟩

/-- C8 (amended): finalizing an hour recomputes its mean download,
mean upload and sample count from ALL samples of the never-cleared
full log whose hour-of-day equals the tracked hour (overwriting any
existing entry for that hour and leaving other hours' entries
unchanged); a second finalize for the same hour-of-day therefore
averages both visits' samples together rather than only those
accumulated after the first finalize. -/
theorem finalize_recomputes_from_full_log (s : MonitorState)
    (h : s.speeds.filter (fun speed => speed.hour == s.current_hour) ≠ []) :
    lookupHour s.current_hour (calculate_hourly_average s).hourly_averages =
      some (hourEntry s) ∧
    ∀ k, k ≠ s.current_hour →
      lookupHour k (calculate_hourly_average s).hourly_averages =
        lookupHour k s.hourly_averages := by
  rw [calculate_hourly_average_eq s h]
  constructor
  · exact lookupHour_insertEntry_self s.current_hour (hourEntry s) s.hourly_averages
  · intro k hk
    exact lookupHour_insertEntry_ne s.current_hour k (hourEntry s) s.hourly_averages hk

/-- Witness for C8's amended theorem at the one-sample state of the
first hour-10 visit. -/
theorem finalize_recomputes_from_full_log_witness :
    (dstage1.speeds.filter (fun speed => speed.hour == dstage1.current_hour) ≠ []) ∧
    (lookupHour dstage1.current_hour (calculate_hourly_average dstage1).hourly_averages =
      some (hourEntry dstage1) ∧
    ∀ k, k ≠ dstage1.current_hour →
      lookupHour k (calculate_hourly_average dstage1).hourly_averages =
        lookupHour k dstage1.hourly_averages) :=
  ⟨by decide, finalize_recomputes_from_full_log dstage1 (by decide)⟩

/-- C9: a disconnection event is created in one step at reconnection
time: its start is the loss timestamp passed in, its end the
reconnection timestamp, its duration exactly end minus start, and (the
reconnection clock reading coming after the loss reading) end ≥ start;
previously recorded events are untouched, and neither the extremes
update nor the hourly finalization ever modifies the disconnection
log. -/
theorem disconnection_event_atomic (s : MonitorState) (st en : DateTime)
    (d u : ℚ) (t : DateTime) (h : st.time ≤ en.time) :
    (track_disconnection st en s).disconnections =
      s.disconnections ++ [⟨st, en, en.time - st.time⟩] ∧
    (track_disconnection st en s).disconnections.take s.disconnections.length =
      s.disconnections ∧
    (∀ e ∈ (track_disconnection st en s).disconnections,
      e ∈ s.disconnections ∨
        (e.start = st ∧ e.end_ = en ∧ e.duration = e.end_.time - e.start.time ∧
          e.start.time ≤ e.end_.time)) ∧
    (update_speed_extremes d u t s).disconnections = s.disconnections ∧
    (calculate_hourly_average s).disconnections = s.disconnections := by
  refine ⟨rfl, ?_, ?_, update_speed_extremes_disconnections d u t s,
    calculate_hourly_average_disconnections s⟩
  · exact List.take_left s.disconnections _
  · intro e he
    rcases List.mem_append.mp he with he | he
    · exact Or.inl he
    · rw [List.mem_singleton.mp he]
      exact Or.inr ⟨rfl, rfl, rfl, h⟩

/-- Witness for C9 on the specification's scenario: loss at time 0,
reconnection 42 seconds later. -/
theorem disconnection_event_atomic_witness :
    ((⟨0, 10⟩ : DateTime).time ≤ (⟨42, 10⟩ : DateTime).time) ∧
    ((track_disconnection ⟨0, 10⟩ ⟨42, 10⟩ (initState 10)).disconnections =
      (initState 10).disconnections ++ [⟨⟨0, 10⟩, ⟨42, 10⟩, (42 : ℚ) - 0⟩] ∧
    (track_disconnection ⟨0, 10⟩ ⟨42, 10⟩ (initState 10)).disconnections.take
        (initState 10).disconnections.length = (initState 10).disconnections ∧
    (∀ e ∈ (track_disconnection ⟨0, 10⟩ ⟨42, 10⟩ (initState 10)).disconnections,
      e ∈ (initState 10).disconnections ∨
        (e.start = ⟨0, 10⟩ ∧ e.end_ = ⟨42, 10⟩ ∧ e.duration = e.end_.time - e.start.time ∧
          e.start.time ≤ e.end_.time)) ∧
    (update_speed_extremes 1 2 ⟨3, 10⟩ (initState 10)).disconnections =
      (initState 10).disconnections ∧
    (calculate_hourly_average (initState 10)).disconnections =
      (initState 10).disconnections) :=
  ⟨by decide, disconnection_event_atomic (initState 10) ⟨0, 10⟩ ⟨42, 10⟩ 1 2 ⟨3, 10⟩ (by decide)⟩

/-- C10: when a successful probe reports a download or upload of
exactly 0, the loop's Python truthiness check drops the sample from
the log, yet the extremes were already updated inside `measure_speed`
before that check — concretely, a 0/5 probe from the fresh state
records a min-download extreme of 0 while the sample log stays empty,
so the extreme's value appears in no logged sample. -/
theorem zero_speed_sample_dropped (s : MonitorState) (now : DateTime) (d u : ℚ)
    (h : d = 0 ∨ u = 0) :
    (loopStep s now (some (d, u))).speeds = s.speeds ∧
    (loopStep (initState 10) ⟨0, 10⟩ (some (0, 5))).min_download.speed = some 0 ∧
    (loopStep (initState 10) ⟨0, 10⟩ (some (0, 5))).max_upload.speed = 5 ∧
    (loopStep (initState 10) ⟨0, 10⟩ (some (0, 5))).speeds = [] := by
  have hz : ¬(d ≠ 0 ∧ u ≠ 0) := by tauto
  have heval : loopStep (initState 10) ⟨0, 10⟩ (some ((0 : ℚ), (5 : ℚ))) =
      update_speed_extremes 0 5 ⟨0, 10⟩ (initState 10) :=
    loopStep_same_hour_drop (initState 10) ⟨0, 10⟩ 0 5 (by decide) (by tauto)
  refine ⟨?_, ?_, ?_, ?_⟩
  · unfold loopStep
    dsimp only
    rw [if_neg hz, update_speed_extremes_def]
    by_cases hh : now.hour ≠ s.current_hour <;> simp [hh, calculate_hourly_average_speeds]
  · rw [heval, update_speed_extremes_def]
    simp [ltInf, initState]
  · rw [heval, update_speed_extremes_def]
    norm_num [initState]
  · rw [heval, update_speed_extremes_speeds]
    rfl

/-- Witness for C10 at the 0-download/5-upload probe. -/
theorem zero_speed_sample_dropped_witness :
    ((0 : ℚ) = 0 ∨ (5 : ℚ) = 0) ∧
    ((loopStep (initState 10) ⟨0, 10⟩ (some (0, 5))).speeds = (initState 10).speeds ∧
    (loopStep (initState 10) ⟨0, 10⟩ (some (0, 5))).min_download.speed = some 0 ∧
    (loopStep (initState 10) ⟨0, 10⟩ (some (0, 5))).max_upload.speed = 5 ∧
    (loopStep (initState 10) ⟨0, 10⟩ (some (0, 5))).speeds = []) :=
  ⟨Or.inl rfl, zero_speed_sample_dropped (initState 10) ⟨0, 10⟩ 0 5 (Or.inl rfl)⟩

end WifiMonitor
